import Mathlib

/-!
Verification development for the tile-pyramid processing pipeline of
`backend/app/services/tile_processor.py`.

The Python module is shallowly embedded below: pure helpers become Lean
functions, the stateful `TileProcessor` object becomes explicit state
passing over `ProcState`, external effects (HTTP download, the GDAL
subprocesses, the filesystem) are modelled by an oracle `Env` plus a
filesystem snapshot `FS`, and each run returns the successive values of
its in-memory status entry, the external invocations it performed, the
index write it made, and the dataset-bridge outcome it reported.
Timestamps (`queued_at`, `started_at`, `created_at`, `failed_at`) carry
no logic and are elided; dictionary keys that a given code path leaves
absent are modelled by the field defaults noted at each definition.
-/

set_option maxRecDepth 16000

namespace TileProc

/-! ### MD5 (`hashlib.md5(url.encode()).hexdigest()`)

`_generate_tile_id` hashes the UTF-8 bytes of the URL with MD5 and
hex-encodes the 128-bit digest.  The hash is implemented here from the
MD5 specification over `Nat` with explicit reduction modulo `2^32`. -/

/-- UTF-8 encoding of one scalar value, as byte values. -/
def utf8EncodeCharNat (c : Char) : List Nat :=
  let v := c.toNat
  if v < 0x80 then [v]
  else if v < 0x800 then
    [0xC0 ||| (v >>> 6), 0x80 ||| (v &&& 0x3F)]
  else if v < 0x10000 then
    [0xE0 ||| (v >>> 12), 0x80 ||| ((v >>> 6) &&& 0x3F), 0x80 ||| (v &&& 0x3F)]
  else
    [0xF0 ||| (v >>> 18), 0x80 ||| ((v >>> 12) &&& 0x3F),
     0x80 ||| ((v >>> 6) &&& 0x3F), 0x80 ||| (v &&& 0x3F)]

/-- The UTF-8 bytes of a string (`url.encode()`). -/
def utf8Bytes (s : String) : List Nat :=
  s.data.flatMap utf8EncodeCharNat

/-- Left-rotation of a 32-bit word held as a `Nat` below `2^32`. -/
def rotl32 (x n : Nat) : Nat :=
  ((x <<< n) ||| (x >>> (32 - n))) % 4294967296

/-- The 64 MD5 sine-derived constants. -/
def md5K : List Nat :=
  [0xd76aa478, 0xe8c7b756, 0x242070db, 0xc1bdceee,
   0xf57c0faf, 0x4787c62a, 0xa8304613, 0xfd469501,
   0x698098d8, 0x8b44f7af, 0xffff5bb1, 0x895cd7be,
   0x6b901122, 0xfd987193, 0xa679438e, 0x49b40821,
   0xf61e2562, 0xc040b340, 0x265e5a51, 0xe9b6c7aa,
   0xd62f105d, 0x02441453, 0xd8a1e681, 0xe7d3fbc8,
   0x21e1cde6, 0xc33707d6, 0xf4d50d87, 0x455a14ed,
   0xa9e3e905, 0xfcefa3f8, 0x676f02d9, 0x8d2a4c8a,
   0xfffa3942, 0x8771f681, 0x6d9d6122, 0xfde5380c,
   0xa4beea44, 0x4bdecfa9, 0xf6bb4b60, 0xbebfbc70,
   0x289b7ec6, 0xeaa127fa, 0xd4ef3085, 0x04881d05,
   0xd9d4d039, 0xe6db99e5, 0x1fa27cf8, 0xc4ac5665,
   0xf4292244, 0x432aff97, 0xab9423a7, 0xfc93a039,
   0x655b59c3, 0x8f0ccc92, 0xffeff47d, 0x85845dd1,
   0x6fa87e4f, 0xfe2ce6e0, 0xa3014314, 0x4e0811a1,
   0xf7537e82, 0xbd3af235, 0x2ad7d2bb, 0xeb86d391]

/-- The 64 per-round left-rotation amounts. -/
def md5S : List Nat :=
  [7, 12, 17, 22, 7, 12, 17, 22, 7, 12, 17, 22, 7, 12, 17, 22,
   5, 9, 14, 20, 5, 9, 14, 20, 5, 9, 14, 20, 5, 9, 14, 20,
   4, 11, 16, 23, 4, 11, 16, 23, 4, 11, 16, 23, 4, 11, 16, 23,
   6, 10, 15, 21, 6, 10, 15, 21, 6, 10, 15, 21, 6, 10, 15, 21]

/-- MD5 padding: a `0x80` byte, zeros to 56 mod 64, then the bit length
little-endian in 8 bytes. -/
def md5Pad (msg : List Nat) : List Nat :=
  let len := msg.length
  let bitLen := (len * 8) % (2 ^ 64)
  let padZeros := (119 - (len % 64)) % 64
  msg ++ [0x80] ++ List.replicate padZeros 0 ++
    (List.range 8).map (fun i => (bitLen >>> (8 * i)) % 256)

/-- Split a byte list into 64-byte chunks. -/
def chunks64 (l : List Nat) : List (List Nat) :=
  (List.range ((l.length + 63) / 64)).map (fun i => (l.drop (64 * i)).take 64)

/-- Little-endian 32-bit word `i` of a 64-byte chunk. -/
def leWord (b : List Nat) (i : Nat) : Nat :=
  b.getD (4 * i) 0 + b.getD (4 * i + 1) 0 * 256 +
    b.getD (4 * i + 2) 0 * 65536 + b.getD (4 * i + 3) 0 * 16777216

/-- The four 32-bit MD5 registers. -/
structure MD5State where
  a : Nat
  b : Nat
  c : Nat
  d : Nat
deriving Repr, DecidableEq

/-- The round function: rounds 0-15 use F, 16-31 G, 32-47 H, 48-63 I. -/
def md5F (i b c d : Nat) : Nat :=
  if i < 16 then (b &&& c) ||| ((0xffffffff ^^^ b) &&& d)
  else if i < 32 then (d &&& b) ||| ((0xffffffff ^^^ d) &&& c)
  else if i < 48 then b ^^^ c ^^^ d
  else c ^^^ (b ||| (0xffffffff ^^^ d))

/-- The message-word schedule. -/
def md5G (i : Nat) : Nat :=
  if i < 16 then i
  else if i < 32 then (5 * i + 1) % 16
  else if i < 48 then (3 * i + 5) % 16
  else (7 * i) % 16

/-- One of the 64 MD5 operations. -/
def md5Step (M : List Nat) (st : MD5State) (i : Nat) : MD5State :=
  let f := (md5F i st.b st.c st.d + st.a + md5K.getD i 0 + M.getD (md5G i) 0) % 4294967296
  ⟨st.d, (st.b + rotl32 f (md5S.getD i 0)) % 4294967296, st.b, st.c⟩

/-- Process one 64-byte chunk. -/
def md5Block (st : MD5State) (chunk : List Nat) : MD5State :=
  let M := (List.range 16).map (leWord chunk)
  let e := (List.range 64).foldl (md5Step M) st
  ⟨(st.a + e.a) % 4294967296, (st.b + e.b) % 4294967296,
   (st.c + e.c) % 4294967296, (st.d + e.d) % 4294967296⟩

/-- The MD5 initial state. -/
def md5Init : MD5State := ⟨0x67452301, 0xefcdab89, 0x98badcfe, 0x10325476⟩

/-- Serialize one 32-bit word little-endian as four bytes. -/
def wordLEBytes (w : Nat) : List Nat :=
  [w % 256, (w >>> 8) % 256, (w >>> 16) % 256, (w >>> 24) % 256]

/-- The 16-byte MD5 digest of a byte string. -/
def md5Digest (msg : List Nat) : List Nat :=
  let fin := (chunks64 (md5Pad msg)).foldl md5Block md5Init
  wordLEBytes fin.a ++ wordLEBytes fin.b ++ wordLEBytes fin.c ++ wordLEBytes fin.d

/-- Lowercase hex digit for a nibble. -/
def hexChar (n : Nat) : Char :=
  if n < 10 then Char.ofNat (48 + n) else Char.ofNat (87 + n)

/-- Lowercase hex encoding of a byte list, two digits per byte. -/
def hexBytes (l : List Nat) : List Char :=
  l.flatMap (fun b => [hexChar (b / 16 % 16), hexChar (b % 16)])

/-- `hashlib.md5(bytes).hexdigest()`. -/
def md5Hex (msg : List Nat) : String := ⟨hexBytes (md5Digest msg)⟩

/-- `_generate_tile_id`: the MD5 hex digest of the URL's UTF-8 bytes. -/
def generate_tile_id (image_url : String) : String :=
  md5Hex (utf8Bytes image_url)

/-! ### Zoom computation (`generate_tiles`)

`generate_tiles` computes `math.ceil(math.log2(max_dimension / 256))` and
clamps it to `[0, 12]`.  The ceiling of the base-2 logarithm is embedded
exactly over `Nat` (for the dimensions at hand `math.log2`'s rounding
cannot move the value across an integer, so the float and the exact
computation agree): `ceilLog2 n` is `⌈log2 n⌉` for `n ≥ 1`, via the
recurrence `⌈log2 n⌉ = 1 + ⌈log2 ⌈n/2⌉⌉` for `n ≥ 2`, and
`⌈log2 (m/256)⌉ = ⌈log2 m⌉ - 8`. -/

/-- Fuelled ceiling base-2 logarithm. -/
def ceilLog2Fuel : Nat → Nat → Nat
  | 0, _ => 0
  | fuel + 1, n => if n ≤ 1 then 0 else ceilLog2Fuel fuel ((n + 1) / 2) + 1

/-- `⌈log2 n⌉` for `n ≥ 1` (and `0` at `0`). -/
def ceilLog2 (n : Nat) : Nat := ceilLog2Fuel n n

/-- `math.ceil(math.log2(m / 256))` for a max dimension `m ≥ 1`. -/
def calculated_max_zoom (m : Nat) : Int := (ceilLog2 m : Int) - 8

/-- `max(0, min(12, calculated_max_zoom))`, the zoom bound passed to
`gdal2tiles` (`--zoom=0-{max_zoom}`). -/
def target_max_zoom (w h : Nat) : Nat :=
  (max 0 (min 12 (calculated_max_zoom (max w h)))).toNat

/-! ### Data model

`JobStatus` models one value of `processing_status[tile_id]`;
dictionary keys a code path leaves absent are the defaults
(`progress := ""`, `percentage := 0`, `message := ""`, `error := none`).
`TileSetRecord` models one value of `tile_index[tile_id]`; the
synchronous path writes no `min_zoom` key, modelled by
`min_zoom := none`.  Timestamps are elided. -/

structure JobStatus where
  status : String
  progress : String := ""
  percentage : Nat := 0
  message : String := ""
  error : Option String := none
deriving Repr, DecidableEq

structure TileSetRecord where
  tile_id : String
  source_url : String
  tiles_path : String
  min_zoom : Option Nat
  max_zoom : Nat
  status : String
  metadata : List (String × String)
deriving Repr, DecidableEq

/-- One entry of a directory listing. -/
structure DirEntry where
  name : String
  isDir : Bool
deriving Repr, DecidableEq

/-- Python `str.isdigit()` (over ASCII names): nonempty and all digits. -/
def pyIsDigit (s : String) : Bool := !s.isEmpty && s.all Char.isDigit

/-- The numeric zoom-level subdirectories of a tiles directory
(`d.is_dir() and d.name.isdigit()`). -/
def zoomLevels (entries : List DirEntry) : List Nat :=
  (entries.filter (fun e => e.isDir && pyIsDigit e.name)).map
    (fun e => e.name.toNat?.getD 0)

/-- `_get_min_zoom`: minimum numeric subdirectory, `0` when none. -/
def get_min_zoom (entries : List DirEntry) : Nat :=
  match zoomLevels entries with
  | [] => 0
  | z :: zs => zs.foldl min z

/-- `_get_max_zoom`: maximum numeric subdirectory, `8` when none. -/
def get_max_zoom (entries : List DirEntry) : Nat :=
  match zoomLevels entries with
  | [] => 8
  | z :: zs => zs.foldl max z

/-- The two persistent-side stores of `TileProcessor`: the in-memory
`processing_status` table and the persisted `tile_index`, both keyed by
tile identifier.  Association lists model the Python dicts. -/
structure ProcState where
  processing_status : List (String × JobStatus)
  tile_index : List (String × TileSetRecord)
deriving Repr, DecidableEq

/-- Dict update `d[k] = v`. -/
def insertAL {α : Type} (l : List (String × α)) (k : String) (v : α) :
    List (String × α) :=
  (k, v) :: l.filter (fun p => p.1 != k)

/-- Dict deletion `del d[k]`. -/
def eraseAL {α : Type} (l : List (String × α)) (k : String) :
    List (String × α) :=
  l.filter (fun p => p.1 != k)

/-- `is_tiled`: the index holds a record for the URL's identifier with
status `completed`. -/
def is_tiled (st : ProcState) (image_url : String) : Bool :=
  match st.tile_index.lookup (generate_tile_id image_url) with
  | some r => r.status == "completed"
  | none => false

/-- The three possible shapes of a `get_processing_status` result: the
in-memory entry, the index record, or the `not_started` default dict. -/
inductive StatusResult where
  | fromStatus (j : JobStatus)
  | fromIndex (r : TileSetRecord)
  | notStarted
deriving Repr, DecidableEq

/-- `get_processing_status`: in-memory entry first, then the index
record, else `{"status": "not_started"}`.  Total — no failure mode. -/
def get_processing_status (st : ProcState) (image_url : String) :
    StatusResult :=
  let tid := generate_tile_id image_url
  match st.processing_status.lookup tid with
  | some j => .fromStatus j
  | none =>
    match st.tile_index.lookup tid with
    | some r => .fromIndex r
    | none => .notStarted

/-- `get_tile_url_template`: raises unless a completed record exists,
else the Leaflet template under the base URL. -/
def get_tile_url_template (st : ProcState) (image_url : String)
    (base_url : String) : Except String String :=
  let tid := generate_tile_id image_url
  match st.tile_index.lookup tid with
  | some info =>
    if info.status != "completed" then .error ("Tiles not ready for " ++ tid)
    else .ok (base_url ++ "/tiles/" ++ tid ++ "/{z}/{x}/{y}.png")
  | none => .error ("Tiles not ready for " ++ generate_tile_id image_url)

/-! ### External world and filesystem

`Env` is the oracle for everything outside the process: the HTTP
transfer, the three GDAL invocations and what the tiler leaves in the
output directory.  `FS` is the snapshot of the identifier-keyed
artifacts on disk.  `ExtCall` records each external invocation a run
performs, in order. -/

structure Env where
  /-- `requests.get` succeeds (`raise_for_status` passes). -/
  downloadOk : Bool
  /-- The declared `content-length` header, `0` when absent. -/
  contentLength : Nat
  /-- Sizes of the streamed chunks. -/
  chunks : List Nat
  /-- `_find_gdal2tiles` locates the tool (else it raises). -/
  gdal2tilesFound : Bool
  /-- The `gdalinfo` subprocess returns (no timeout). -/
  gdalinfoOk : Bool
  /-- The parse of `Size is w, h` from the `gdalinfo` output. -/
  gdalinfoSize : Option (Nat × Nat)
  /-- Exit code of `gdal2tiles`. -/
  tilerExit : Nat
  /-- Captured standard error of `gdal2tiles`. -/
  tilerStderr : String
  /-- Tile counts observed by the 2-second monitoring poll. -/
  tilerCounts : List Nat
  /-- Contents of the output directory once the tiler has exited. -/
  tilerEntries : List DirEntry
  /-- Exit code of `gdal_translate`. -/
  georefExit : Nat
  /-- Captured standard error of `gdal_translate`. -/
  georefStderr : String
deriving Repr

structure FS where
  /-- `downloads/{tile_id}{ext}` exists. -/
  imageExists : Bool
  /-- `downloads/{tile_id}_georef.tif` exists. -/
  georefExists : Bool
  /-- `tiles_cache/{tile_id}` exists. -/
  tilesDirExists : Bool
  /-- Its directory entries. -/
  tilesEntries : List DirEntry
deriving Repr, DecidableEq

inductive ExtCall where
  | httpGet
  | gdalTranslate
  | gdalinfo
  | gdal2tiles (zoomMax : Nat)
deriving Repr, DecidableEq

/-! ### Stage 1 — `download_image` -/

/-- One progress write of the download loop: Python sets
`int((downloaded_size / total_size) * 30)` (exact division embedded;
the float cannot change the claims at stake). -/
def chunkUpdate (total downloaded : Nat) (cur : JobStatus) : JobStatus :=
  let pct := downloaded * 30 / total
  { cur with
    percentage := pct
    progress := "downloading"
    message := "Downloading image... " ++ toString pct ++ "%" }

/-- The chunk loop of `download_image`: a status write per chunk when a
content length was declared (`total_size > 0`; the entry is present
throughout a run).  Returns the writes, in order, and the final entry
value. -/
def downloadLoop (total : Nat) : Nat → JobStatus → List Nat →
    List JobStatus × JobStatus
  | _, cur, [] => ([], cur)
  | downloaded, cur, c :: cs =>
    let d := downloaded + c
    if 0 < total then
      let rest := downloadLoop total d (chunkUpdate total d cur) cs
      (chunkUpdate total d cur :: rest.1, rest.2)
    else downloadLoop total d cur cs

/-- Result of one `download_image` call: the status writes, the
external calls, the filesystem after, the final entry value and the
outcome. -/
structure DlOut where
  trace : List JobStatus
  calls : List ExtCall
  fs : FS
  cur : JobStatus
  result : Except String Unit
deriving Repr

/-- `download_image`: return at once when the file already exists, else
stream the transfer, failing when the request fails. -/
def download_image (env : Env) (fs : FS) (cur : JobStatus) : DlOut :=
  if fs.imageExists then ⟨[], [], fs, cur, .ok ()⟩
  else if !env.downloadOk then
    ⟨[], [.httpGet], fs, cur, .error "requests.get failed"⟩
  else
    ⟨(downloadLoop env.contentLength 0 cur env.chunks).1, [.httpGet],
      { fs with imageExists := true },
      (downloadLoop env.contentLength 0 cur env.chunks).2, .ok ()⟩

/-! ### Stage 3 — `generate_tiles` -/

/-- One status write of the tiler monitoring loop:
`min(95, 40 + int((count / 100000) * 55))` (exact division embedded)
plus a message. -/
def tilerUpdate (c : Nat) (cur : JobStatus) : JobStatus :=
  { cur with
    percentage := min 95 (40 + c * 55 / 100000)
    message := "Generating tiles... " ++ toString c ++ " tiles created" }

def tilerLoop : JobStatus → Nat → List Nat → List JobStatus × JobStatus
  | cur, _, [] => ([], cur)
  | cur, last, c :: cs =>
    if c != last then
      let rest := tilerLoop (tilerUpdate c cur) c cs
      (tilerUpdate c cur :: rest.1, rest.2)
    else tilerLoop cur last cs

/-- Result of `generate_tiles`: status writes, external calls, the
filesystem after, the final entry value, and the achieved max zoom
(read back from the output directory) or the raised error. -/
structure GenOut where
  trace : List JobStatus
  calls : List ExtCall
  fs : FS
  cur : JobStatus
  result : Except String Nat
deriving Repr

/-- The tail of `generate_tiles` once the target zoom is fixed: run the
tiler, monitor it, check its exit code, then read the achieved max zoom
from the output directory. -/
def generateTilesRun (env : Env) (fs1 : FS) (cur : JobStatus)
    (target : Nat) : GenOut :=
  let fs2 := { fs1 with tilesEntries := env.tilerEntries }
  if env.tilerExit != 0 then
    { trace := (tilerLoop cur 0 env.tilerCounts).1
      calls := [.gdalinfo, .gdal2tiles target]
      fs := fs2
      cur := (tilerLoop cur 0 env.tilerCounts).2
      result := .error ("gdal2tiles failed: " ++ env.tilerStderr) }
  else
    { trace := (tilerLoop cur 0 env.tilerCounts).1
      calls := [.gdalinfo, .gdal2tiles target]
      fs := fs2
      cur := (tilerLoop cur 0 env.tilerCounts).2
      result := .ok (get_max_zoom env.tilerEntries) }

/-- `generate_tiles`: make the output directory, locate `gdal2tiles`
(raising when absent), query the dimensions with `gdalinfo` (raising on
timeout; `math.log2(0)` raises when the parsed max dimension is `0`),
compute the target zoom (`8` when the size cannot be parsed), then run
the tiler. -/
def generate_tiles (env : Env) (fs : FS) (cur : JobStatus) : GenOut :=
  let fs1 := { fs with tilesDirExists := true }
  if !env.gdal2tilesFound then
    { trace := []
      calls := []
      fs := fs1
      cur := cur
      result := .error "gdal2tiles.py not found. Please install GDAL" }
  else if !env.gdalinfoOk then
    { trace := []
      calls := [.gdalinfo]
      fs := fs1
      cur := cur
      result := .error "gdalinfo timed out" }
  else
    match env.gdalinfoSize with
    | some (w, h) =>
      if max w h = 0 then
        { trace := []
          calls := [.gdalinfo]
          fs := fs1
          cur := cur
          result := .error "math domain error" }
      else generateTilesRun env fs1 cur (target_max_zoom w h)
    | none => generateTilesRun env fs1 cur 8

/-! ### The background orchestrator — `_process_image_background` -/

/-- Everything observable about one background run: the state after
(status table and index), the filesystem after, the successive values
taken by the run's status entry, the external invocations, the
dataset-bridge outcome (`_update_dataset_status` tag, invoked only when
the metadata carries `dataset_id`), and the index write, if any. -/
structure BgOut where
  stateAfter : ProcState
  fsAfter : FS
  trace : List JobStatus
  calls : List ExtCall
  datasetOutcome : Option String
  indexWrite : Option TileSetRecord
deriving Repr

/-- Observable outcome of one pipeline stage: status writes, external
calls, the filesystem after, the final entry value and the result. -/
structure StageOut (α : Type) where
  trace : List JobStatus
  calls : List ExtCall
  fs : FS
  cur : JobStatus
  result : Except String α
deriving Repr

/-- Step 1 — Download (0-20%), skipped when the artifact exists. -/
def bgStep1 (env : Env) (fs : FS) (s0 : JobStatus) : StageOut Unit :=
  if fs.imageExists then ⟨[], [], fs, s0, .ok ()⟩
  else
    let sDl := { s0 with
                 progress := "downloading"
                 percentage := 0
                 message := "Downloading image..." }
    let d := download_image env fs sDl
    ⟨sDl :: d.trace, d.calls, d.fs, d.cur, d.result⟩

/-- Step 2 — Georeference (20-40%), skipped when the artifact exists;
`gdal_translate` failure raises with its standard error. -/
def bgStep2 (env : Env) (fs1 : FS) (s20 : JobStatus) : StageOut Unit :=
  if fs1.georefExists then ⟨[], [], fs1, s20, .ok ()⟩
  else
    let sG := { s20 with
                progress := "georeferencing"
                percentage := 20
                message := "Georeferencing image to world bounds..." }
    if env.georefExit != 0 then
      ⟨[sG], [.gdalTranslate], fs1, sG,
        .error ("gdal_translate failed: " ++ env.georefStderr)⟩
    else
      ⟨[sG], [.gdalTranslate], { fs1 with georefExists := true }, sG, .ok ()⟩

/-- Step 3 — Tile generation (40-100%), skipped when the tiles
directory exists and is nonempty; returns the achieved max zoom. -/
def bgStep3 (env : Env) (fs2 : FS) (s40 : JobStatus) : StageOut Nat :=
  if !fs2.tilesDirExists || fs2.tilesEntries.isEmpty then
    let sT := { s40 with
                progress := "generating_tiles"
                percentage := 40
                message := "Generating tiles... This may take several minutes." }
    let g := generate_tiles env fs2 sT
    ⟨sT :: g.trace, g.calls, g.fs, g.cur, g.result⟩
  else ⟨[], [], fs2, s40, .ok (get_max_zoom fs2.tilesEntries)⟩

/-- The `except` handler of `_process_image_background`: replace the
entry by a failed one (percentage reset to `0`), write nothing to the
index, and report `failed` to the dataset bridge when the metadata
carries a `dataset_id`. -/
def bgFail (st : ProcState) (tid : String) (fs : FS)
    (trace : List JobStatus) (calls : List ExtCall)
    (metadata : List (String × String)) (e : String) : BgOut :=
  let fstat : JobStatus :=
    { status := "failed"
      progress := "failed"
      percentage := 0
      message := "Processing failed: " ++ e
      error := some e }
  { stateAfter :=
      { st with processing_status := insertAL st.processing_status tid fstat }
    fsAfter := fs
    trace := trace ++ [fstat]
    calls := calls
    datasetOutcome :=
      if (metadata.lookup "dataset_id").isSome then some "failed" else none
    indexWrite := none }

/-- `_process_image_background`: the resumable four-stage run.  Each
stage is skipped when its artifact already exists; the 20% and 40%
markers are written either way; on success a completed record (with
`min_zoom` read from the tiles directory) is written to the index and
the entry is retained at `completed`; on any raise the handler above
runs. -/
def process_image_background (env : Env) (fs : FS) (st : ProcState)
    (image_url : String) (metadata : List (String × String)) : BgOut :=
  let tid := generate_tile_id image_url
  let s0 : JobStatus :=
    { status := "processing"
      progress := "queued"
      percentage := 0
      message := "Queued for processing..." }
  let st1 := bgStep1 env fs s0
  match st1.result with
  | .error e => bgFail st tid st1.fs (s0 :: st1.trace) st1.calls metadata e
  | .ok () =>
  let s20 := { st1.cur with percentage := 20, message := "Download complete" }
  let st2 := bgStep2 env st1.fs s20
  match st2.result with
  | .error e =>
    bgFail st tid st2.fs (s0 :: st1.trace ++ [s20] ++ st2.trace)
      (st1.calls ++ st2.calls) metadata e
  | .ok () =>
  let s40 := { st2.cur with percentage := 40, message := "Georeferencing complete" }
  let st3 := bgStep3 env st2.fs s40
  match st3.result with
  | .error e =>
    bgFail st tid st3.fs
      (s0 :: st1.trace ++ [s20] ++ st2.trace ++ [s40] ++ st3.trace)
      (st1.calls ++ st2.calls ++ st3.calls) metadata e
  | .ok max_zoom =>
  let min_zoom := get_min_zoom st3.fs.tilesEntries
  -- Step 4: Finalizing (95%), index write, completed (100%)
  let s95 := { st3.cur with
               progress := "finalizing"
               percentage := 95
               message := "Finalizing..." }
  let tinfo : TileSetRecord :=
    { tile_id := tid
      source_url := image_url
      tiles_path := tid
      min_zoom := some min_zoom
      max_zoom := max_zoom
      status := "completed"
      metadata := metadata }
  let s100 := { s95 with
                progress := "completed"
                percentage := 100
                message := "Processing complete!"
                status := "completed" }
  { stateAfter :=
      { processing_status := insertAL st.processing_status tid s100
        tile_index := insertAL st.tile_index tid tinfo }
    fsAfter := st3.fs
    trace := s0 :: st1.trace ++ [s20] ++ st2.trace ++ [s40] ++ st3.trace ++
      [s95, s100]
    calls := st1.calls ++ st2.calls ++ st3.calls
    datasetOutcome :=
      if (metadata.lookup "dataset_id").isSome then some "ready" else none
    indexWrite := some tinfo }

/-! ### `queue_processing` -/

inductive QueueOutcome where
  /-- Returned because a completed record exists. -/
  | alreadyTiled
  /-- Returned because a status entry exists for the identifier. -/
  | alreadyProcessing
  /-- Seeded the `queued` entry and started the background thread. -/
  | started
deriving Repr, DecidableEq

/-- `queue_processing`: decline when already tiled or when any status
entry exists for the identifier (whatever its status); otherwise seed
the `queued` entry and launch the background run.  The run itself is
`process_image_background` on the returned state. -/
def queue_processing (st : ProcState) (image_url : String) :
    QueueOutcome × ProcState :=
  let tid := generate_tile_id image_url
  if is_tiled st image_url then (.alreadyTiled, st)
  else if (st.processing_status.lookup tid).isSome then
    (.alreadyProcessing, st)
  else
    (.started,
      { st with processing_status :=
          insertAL st.processing_status tid { status := "queued" } })

/-! ### The synchronous variant — `process_image` -/

/-- Everything observable about one synchronous run.  The dataset
bridge is never invoked on this path, so `datasetOutcome` is always
`none` by construction. -/
structure SyncOut where
  result : Except String TileSetRecord
  stateAfter : ProcState
  fsAfter : FS
  trace : List JobStatus
  calls : List ExtCall
  datasetOutcome : Option String
deriving Repr

/-- `process_image`: short-circuit to the existing record when already
tiled; else download (the exists-check lives inside `download_image`)
and tile the raw download directly — no georeference stage.  On success
the written record carries no `min_zoom` key and the status entry is
deleted; on failure the entry is replaced by a bare failed dict and the
exception propagates to the caller. -/
def process_image (env : Env) (fs : FS) (st : ProcState)
    (image_url : String) (metadata : List (String × String)) : SyncOut :=
  let tid := generate_tile_id image_url
  if is_tiled st image_url then
    { result :=
        match st.tile_index.lookup tid with
        | some r => .ok r
        | none => .error "KeyError"
      stateAfter := st
      fsAfter := fs
      trace := []
      calls := []
      datasetOutcome := none }
  else
    let s0 : JobStatus := { status := "processing", progress := "downloading" }
    let d := download_image env fs s0
    match d.result with
    | .error e =>
      let fstat : JobStatus := { status := "failed", error := some e }
      { result := .error e
        stateAfter :=
          { st with processing_status := insertAL st.processing_status tid fstat }
        fsAfter := d.fs
        trace := s0 :: d.trace ++ [fstat]
        calls := d.calls
        datasetOutcome := none }
    | .ok () =>
    let sG := { d.cur with progress := "generating_tiles" }
    let g := generate_tiles env d.fs sG
    match g.result with
    | .error e =>
      let fstat : JobStatus := { status := "failed", error := some e }
      { result := .error e
        stateAfter :=
          { st with processing_status := insertAL st.processing_status tid fstat }
        fsAfter := g.fs
        trace := s0 :: d.trace ++ [sG] ++ g.trace ++ [fstat]
        calls := d.calls ++ g.calls
        datasetOutcome := none }
    | .ok max_zoom =>
      let tinfo : TileSetRecord :=
        { tile_id := tid
          source_url := image_url
          tiles_path := tid
          min_zoom := none
          max_zoom := max_zoom
          status := "completed"
          metadata := metadata }
      { result := .ok tinfo
        stateAfter :=
          { processing_status := eraseAL st.processing_status tid
            tile_index := insertAL st.tile_index tid tinfo }
        fsAfter := g.fs
        trace := s0 :: d.trace ++ [sG] ++ g.trace
        calls := d.calls ++ g.calls
        datasetOutcome := none }

/-! ## Concrete instances used by witnesses and counterexamples -/

/-- Lowercase hexadecimal digit predicate. -/
def isLowerHexDigit (c : Char) : Bool :=
  ('0' ≤ c && c ≤ '9') || ('a' ≤ c && c ≤ 'f')

/-- A concrete completed record for the C8 witness. -/
def c8Rec : TileSetRecord :=
  { tile_id := generate_tile_id "https://e.com/b.tif"
    source_url := "https://e.com/b.tif"
    tiles_path := generate_tile_id "https://e.com/b.tif"
    min_zoom := some 0
    max_zoom := 8
    status := "completed"
    metadata := [] }

/-- A concrete state holding `c8Rec` in the persisted index. -/
def c8State : ProcState :=
  ⟨[], [(generate_tile_id "https://e.com/b.tif", c8Rec)]⟩

/-- A concrete state holding a completed record for the C3 witness. -/
def c3State : ProcState :=
  ⟨[], [(generate_tile_id "https://e.com/c.tif",
    { tile_id := generate_tile_id "https://e.com/c.tif"
      source_url := "https://e.com/c.tif"
      tiles_path := generate_tile_id "https://e.com/c.tif"
      min_zoom := some 0
      max_zoom := 9
      status := "completed"
      metadata := [] })]⟩

/-- C1: a run over a filesystem where download and georeference
artifacts exist, whose tiler exits `0` yet writes nothing. -/
def c1Env : Env :=
  { downloadOk := true
    contentLength := 0
    chunks := []
    gdal2tilesFound := true
    gdalinfoOk := true
    gdalinfoSize := some (1024, 1024)
    tilerExit := 0
    tilerStderr := ""
    tilerCounts := []
    tilerEntries := []
    georefExit := 0
    georefStderr := "" }

def c1Url : String := "https://example.com/galaxy.tif"

/-- The background run of `c1Env` from an empty state. -/
def c1Run : BgOut :=
  process_image_background c1Env ⟨true, true, false, []⟩ ⟨[], []⟩ c1Url []

/-- C2: a run whose download fails, leaving a retained failed entry. -/
def c2Env : Env :=
  { downloadOk := false
    contentLength := 0
    chunks := []
    gdal2tilesFound := true
    gdalinfoOk := true
    gdalinfoSize := none
    tilerExit := 0
    tilerStderr := ""
    tilerCounts := []
    tilerEntries := []
    georefExit := 0
    georefStderr := "" }

def c2Url : String := "https://example.com/a.tif"

/-- The failed background run of `c2Env` from an empty state. -/
def c2Run : BgOut :=
  process_image_background c2Env ⟨false, false, false, []⟩ ⟨[], []⟩ c2Url []

/-- C7: a run whose download and georeference artifacts already exist
and whose tiles directory is missing. -/
def c7Env : Env :=
  { downloadOk := true
    contentLength := 0
    chunks := []
    gdal2tilesFound := true
    gdalinfoOk := true
    gdalinfoSize := some (512, 512)
    tilerExit := 0
    tilerStderr := ""
    tilerCounts := []
    tilerEntries := [⟨"0", true⟩, ⟨"1", true⟩]
    georefExit := 0
    georefStderr := "" }

/-- C4: a fully successful environment for comparing the synchronous
and the background run from an identical empty start. -/
def c4Env : Env :=
  { downloadOk := true
    contentLength := 0
    chunks := []
    gdal2tilesFound := true
    gdalinfoOk := true
    gdalinfoSize := none
    tilerExit := 0
    tilerStderr := ""
    tilerCounts := []
    tilerEntries := [⟨"0", true⟩]
    georefExit := 0
    georefStderr := "" }

def c4Url : String := "https://example.com/m31.tif"

/-- The background run of `c4Env` from an empty state. -/
def c4Bg : BgOut :=
  process_image_background c4Env ⟨false, false, false, []⟩ ⟨[], []⟩ c4Url
    [("dataset_id", "d1")]

/-- The synchronous run of `c4Env` from the same empty state. -/
def c4Sync : SyncOut :=
  process_image c4Env ⟨false, false, false, []⟩ ⟨[], []⟩ c4Url
    [("dataset_id", "d1")]

/-- C5: a download with a declared content length fully delivered in
one chunk, so the chunk update writes `int((8192/8192)*30) = 30`. -/
def c5Env : Env :=
  { downloadOk := true
    contentLength := 8192
    chunks := [8192]
    gdal2tilesFound := true
    gdalinfoOk := true
    gdalinfoSize := none
    tilerExit := 0
    tilerStderr := ""
    tilerCounts := []
    tilerEntries := [⟨"0", true⟩]
    georefExit := 0
    georefStderr := "" }

def c5Url : String := "https://example.com/big.tif"

/-- The background run of `c5Env` from an empty state. -/
def c5Run : BgOut :=
  process_image_background c5Env ⟨false, false, false, []⟩ ⟨[], []⟩ c5Url []

/-- Executable check that a list of percentages never decreases. -/
def nonDecreasing : List Nat → Bool
  | [] => true
  | [_] => true
  | a :: b :: t => decide (a ≤ b) && nonDecreasing (b :: t)

/-! ## Supporting lemmas -/

theorem hexChar_isHex : ∀ n < 16, isLowerHexDigit (hexChar n) = true := by decide

theorem hexBytes_length (l : List Nat) : (hexBytes l).length = 2 * l.length := by
  induction l with
  | nil => rfl
  | cons b bs ih => simp [hexBytes] at ih ⊢; omega

theorem hexBytes_all_hex (l : List Nat) :
    ∀ c ∈ hexBytes l, isLowerHexDigit c = true := by
  induction l with
  | nil => simp [hexBytes]
  | cons b bs ih =>
    intro c hc
    simp only [hexBytes, List.flatMap_cons, List.mem_append] at hc
    rcases hc with hc | hc
    · simp only [List.mem_cons, List.not_mem_nil, or_false] at hc
      rcases hc with rfl | rfl
      · exact hexChar_isHex _ (Nat.mod_lt _ (by norm_num))
      · exact hexChar_isHex _ (Nat.mod_lt _ (by norm_num))
    · exact ih c hc

theorem md5Digest_length (msg : List Nat) : (md5Digest msg).length = 16 := by
  simp [md5Digest, wordLEBytes]

/-- `List.lookup` after a dict deletion of the same key. -/
theorem lookup_eraseAL {α : Type} (l : List (String × α)) (k : String) :
    (eraseAL l k).lookup k = none := by
  induction l with
  | nil => rfl
  | cons p ps ih =>
    obtain ⟨k1, v⟩ := p
    rcases eq_or_ne k1 k with h | h
    · have hb : ((k1, v).1 != k) = false := by simp [h]
      rw [eraseAL, List.filter_cons, hb]
      exact ih
    · have hb : ((k1, v).1 != k) = true := by simpa using h
      have hk : (k == k1) = false := by simpa using (Ne.symm h)
      rw [eraseAL, List.filter_cons, hb]
      simp only [List.lookup, hk]
      exact ih

/-- `List.lookup` after a dict update of the same key. -/
theorem lookup_insertAL {α : Type} (l : List (String × α)) (k : String)
    (v : α) : (insertAL l k v).lookup k = some v := by
  simp [insertAL, List.lookup]

/-- The calls of the tiler tail are its two invocations, whatever the
exit code. -/
theorem generateTilesRun_calls (env : Env) (fs1 : FS) (cur : JobStatus)
    (target : Nat) : (generateTilesRun env fs1 cur target).calls =
      [.gdalinfo, .gdal2tiles target] := by
  unfold generateTilesRun
  split <;> rfl

/-- `download_image` never invokes `gdal_translate`. -/
theorem download_image_no_translate (env : Env) (fs : FS) (cur : JobStatus) :
    ExtCall.gdalTranslate ∉ (download_image env fs cur).calls := by
  cases hb : fs.imageExists <;> cases hd : env.downloadOk <;>
    simp [download_image, hb, hd]

/-- `generate_tiles` never invokes `gdal_translate`. -/
theorem generate_tiles_no_translate (env : Env) (fs : FS) (cur : JobStatus) :
    ExtCall.gdalTranslate ∉ (generate_tiles env fs cur).calls := by
  cases hf : env.gdal2tilesFound
  · simp [generate_tiles, hf]
  · cases hi : env.gdalinfoOk
    · simp [generate_tiles, hf, hi]
    · rcases hs : env.gdalinfoSize with _ | ⟨w, h⟩
      · simp [generate_tiles, hf, hi, hs, generateTilesRun_calls]
      · by_cases hw : max w h = 0
        · simp [generate_tiles, hf, hi, hs, hw]
        · simp [generate_tiles, hf, hi, hs, hw, generateTilesRun_calls]

/-- Every write of the download chunk loop stays within 100 while the
transferred bytes do not exceed the declared total. -/
theorem downloadLoop_bounds (total : Nat) (cs : List Nat) :
    ∀ (d : Nat) (cur : JobStatus), cur.percentage ≤ 100 →
      (0 < total → d + cs.sum ≤ total) →
      (∀ j ∈ (downloadLoop total d cur cs).1, j.percentage ≤ 100) ∧
      (downloadLoop total d cur cs).2.percentage ≤ 100 := by
  induction cs with
  | nil =>
    intro d cur h1 h2
    exact ⟨by simp [downloadLoop], by simpa [downloadLoop] using h1⟩
  | cons c cs ih =>
    intro d cur h1 h2
    by_cases hT : 0 < total
    · have hs := h2 hT
      rw [List.sum_cons] at hs
      have hdc : d + c ≤ total := by omega
      have hpct : (d + c) * 30 / total ≤ 100 := by
        have h30 : (d + c) * 30 ≤ total * 30 := Nat.mul_le_mul_right 30 hdc
        have hdiv : (d + c) * 30 / total ≤ total * 30 / total :=
          Nat.div_le_div_right h30
        have hcan : total * 30 / total = 30 := Nat.mul_div_cancel_left 30 hT
        omega
      have ih' := ih (d + c) (chunkUpdate total (d + c) cur)
        (by simpa [chunkUpdate] using hpct) (by intro h'; omega)
      simp only [downloadLoop, if_pos hT]
      refine ⟨fun j hj => ?_, ih'.2⟩
      rcases List.mem_cons.mp hj with rfl | hj'
      · simpa [chunkUpdate] using hpct
      · exact ih'.1 j hj'
    · simp only [downloadLoop, if_neg hT]
      exact ih (d + c) cur h1 (by intro h'; cases hT h')

/-- Every write of the tiler monitoring loop stays within 100. -/
theorem tilerLoop_bounds (cs : List Nat) :
    ∀ (cur : JobStatus) (last : Nat), cur.percentage ≤ 100 →
      (∀ j ∈ (tilerLoop cur last cs).1, j.percentage ≤ 100) ∧
      (tilerLoop cur last cs).2.percentage ≤ 100 := by
  induction cs with
  | nil =>
    intro cur last h1
    exact ⟨by simp [tilerLoop], by simpa [tilerLoop] using h1⟩
  | cons c cs ih =>
    intro cur last h1
    by_cases hc : (c != last) = true
    · have hup : (tilerUpdate c cur).percentage ≤ 100 := by
        simp [tilerUpdate]
      have ih' := ih (tilerUpdate c cur) c hup
      simp only [tilerLoop, if_pos hc]
      refine ⟨fun j hj => ?_, ih'.2⟩
      rcases List.mem_cons.mp hj with rfl | hj'
      · exact hup
      · exact ih'.1 j hj'
    · simp only [tilerLoop, if_neg hc]
      exact ih cur last h1

theorem generateTilesRun_bounds (env : Env) (fs1 : FS) (cur : JobStatus)
    (target : Nat) (h1 : cur.percentage ≤ 100) :
    (∀ j ∈ (generateTilesRun env fs1 cur target).trace, j.percentage ≤ 100) ∧
    (generateTilesRun env fs1 cur target).cur.percentage ≤ 100 := by
  have htl := tilerLoop_bounds env.tilerCounts cur 0 h1
  unfold generateTilesRun
  split
  · exact ⟨htl.1, htl.2⟩
  · exact ⟨htl.1, htl.2⟩

theorem generate_tiles_bounds (env : Env) (fs : FS) (cur : JobStatus)
    (h1 : cur.percentage ≤ 100) :
    (∀ j ∈ (generate_tiles env fs cur).trace, j.percentage ≤ 100) ∧
    (generate_tiles env fs cur).cur.percentage ≤ 100 := by
  cases hf : env.gdal2tilesFound
  · exact ⟨by simp [generate_tiles, hf],
      by simpa [generate_tiles, hf] using h1⟩
  · cases hi : env.gdalinfoOk
    · exact ⟨by simp [generate_tiles, hf, hi],
        by simpa [generate_tiles, hf, hi] using h1⟩
    · rcases hs : env.gdalinfoSize with _ | ⟨w, h⟩
      · simpa [generate_tiles, hf, hi, hs] using
          generateTilesRun_bounds env { fs with tilesDirExists := true }
            cur 8 h1
      · by_cases hw : max w h = 0
        · exact ⟨by simp [generate_tiles, hf, hi, hs, hw],
            by simpa [generate_tiles, hf, hi, hs, hw] using h1⟩
        · simpa [generate_tiles, hf, hi, hs, hw] using
            generateTilesRun_bounds env { fs with tilesDirExists := true }
              cur (target_max_zoom w h) h1

theorem download_image_bounds (env : Env) (fs : FS) (cur : JobStatus)
    (h1 : cur.percentage ≤ 100)
    (h2 : 0 < env.contentLength → env.chunks.sum ≤ env.contentLength) :
    (∀ j ∈ (download_image env fs cur).trace, j.percentage ≤ 100) ∧
    (download_image env fs cur).cur.percentage ≤ 100 := by
  cases hb : fs.imageExists
  · cases hd : env.downloadOk
    · exact ⟨by simp [download_image, hb, hd],
        by simpa [download_image, hb, hd] using h1⟩
    · have hl := downloadLoop_bounds env.contentLength env.chunks 0 cur h1
        (by intro hT; simpa using h2 hT)
      exact ⟨by simpa [download_image, hb, hd] using hl.1,
        by simpa [download_image, hb, hd] using hl.2⟩
  · exact ⟨by simp [download_image, hb],
      by simpa [download_image, hb] using h1⟩

theorem bgStep1_bounds (env : Env) (fs : FS) (s0 : JobStatus)
    (h0 : s0.percentage ≤ 100)
    (h2 : 0 < env.contentLength → env.chunks.sum ≤ env.contentLength) :
    (∀ j ∈ (bgStep1 env fs s0).trace, j.percentage ≤ 100) ∧
    (bgStep1 env fs s0).cur.percentage ≤ 100 := by
  cases hb : fs.imageExists
  · have hd := download_image_bounds env fs
      { s0 with
        progress := "downloading"
        percentage := 0
        message := "Downloading image..." } (by simp) h2
    refine ⟨?_, by simpa [bgStep1, hb] using hd.2⟩
    intro j hj
    simp only [bgStep1, hb, Bool.false_eq_true, if_false, List.mem_cons] at hj
    rcases hj with rfl | hj
    · simp
    · exact hd.1 j hj
  · exact ⟨by simp [bgStep1, hb], by simpa [bgStep1, hb] using h0⟩

theorem bgStep2_bounds (env : Env) (fs1 : FS) (s20 : JobStatus)
    (h : s20.percentage ≤ 100) :
    (∀ j ∈ (bgStep2 env fs1 s20).trace, j.percentage ≤ 100) ∧
    (bgStep2 env fs1 s20).cur.percentage ≤ 100 := by
  cases hg : fs1.georefExists
  · cases hge : env.georefExit != 0 <;>
      · refine ⟨?_, by simp [bgStep2, hg, hge]⟩
        intro j hj
        simp only [bgStep2, hg, hge, Bool.false_eq_true, if_false, if_true,
          Bool.true_eq_false, List.mem_singleton] at hj
        subst hj
        simp
  · exact ⟨by simp [bgStep2, hg], by simpa [bgStep2, hg] using h⟩

theorem bgStep3_bounds (env : Env) (fs2 : FS) (s40 : JobStatus)
    (h : s40.percentage ≤ 100) :
    (∀ j ∈ (bgStep3 env fs2 s40).trace, j.percentage ≤ 100) ∧
    (bgStep3 env fs2 s40).cur.percentage ≤ 100 := by
  by_cases hc : (!fs2.tilesDirExists || fs2.tilesEntries.isEmpty) = true
  · have hg := generate_tiles_bounds env fs2
      { s40 with
        progress := "generating_tiles"
        percentage := 40
        message := "Generating tiles... This may take several minutes." }
      (by simp)
    refine ⟨?_, by simpa [bgStep3, hc] using hg.2⟩
    intro j hj
    simp only [bgStep3, hc, if_true, List.mem_cons] at hj
    rcases hj with rfl | hj
    · simp
    · exact hg.1 j hj
  · have hc' : (!fs2.tilesDirExists || fs2.tilesEntries.isEmpty) = false := by
      simpa using hc
    exact ⟨by simp [bgStep3, hc'], by simpa [bgStep3, hc'] using h⟩

theorem ceilLog2Fuel_one (fuel : Nat) : ceilLog2Fuel fuel 1 = 0 := by
  cases fuel <;> simp [ceilLog2Fuel]

/-- Upper characterization: with enough fuel, `n ≤ 2 ^ ceilLog2 n`. -/
theorem ceilLog2Fuel_le_pow :
    ∀ fuel n : Nat, 1 ≤ n → n ≤ fuel → n ≤ 2 ^ ceilLog2Fuel fuel n := by
  intro fuel
  induction fuel with
  | zero => intro n h1 h2; exact absurd h2 (by omega)
  | succ f ih =>
    intro n h1 h2
    by_cases hle : n ≤ 1
    · simp only [ceilLog2Fuel, if_pos hle, pow_zero]
      omega
    · simp only [ceilLog2Fuel, if_neg hle]
      have hm1 : 1 ≤ (n + 1) / 2 := by omega
      have hmf : (n + 1) / 2 ≤ f := by omega
      have ihm := ih ((n + 1) / 2) hm1 hmf
      have h2m : n ≤ 2 * ((n + 1) / 2) := by omega
      calc n ≤ 2 * ((n + 1) / 2) := h2m
        _ ≤ 2 * 2 ^ ceilLog2Fuel f ((n + 1) / 2) :=
            Nat.mul_le_mul (le_refl 2) ihm
        _ = 2 ^ (ceilLog2Fuel f ((n + 1) / 2) + 1) := by
            rw [pow_succ, Nat.mul_comm]

/-- Lower characterization: `2 ^ (ceilLog2 n - 1) < n` for `n ≥ 2`. -/
theorem ceilLog2Fuel_pow_pred_lt :
    ∀ fuel n : Nat, 2 ≤ n → 2 ^ (ceilLog2Fuel fuel n - 1) < n := by
  intro fuel
  induction fuel with
  | zero =>
    intro n h2
    simp only [ceilLog2Fuel, Nat.zero_sub, pow_zero]
    omega
  | succ f ih =>
    intro n h2
    have hle : ¬ n ≤ 1 := by omega
    simp only [ceilLog2Fuel, if_neg hle, Nat.add_sub_cancel]
    by_cases hm2 : 2 ≤ (n + 1) / 2
    · have ihm := ih ((n + 1) / 2) hm2
      rcases Nat.eq_zero_or_pos (ceilLog2Fuel f ((n + 1) / 2)) with h0 | hpos
      · rw [h0, pow_zero]; omega
      · have hr : ceilLog2Fuel f ((n + 1) / 2) - 1 + 1 =
            ceilLog2Fuel f ((n + 1) / 2) := by omega
        have hle2 : 2 ^ (ceilLog2Fuel f ((n + 1) / 2) - 1) ≤ (n + 1) / 2 - 1 :=
          Nat.le_pred_of_lt ihm
        calc 2 ^ ceilLog2Fuel f ((n + 1) / 2)
            = 2 * 2 ^ (ceilLog2Fuel f ((n + 1) / 2) - 1) := by
              conv_lhs => rw [← hr]
              rw [pow_succ, Nat.mul_comm]
          _ ≤ 2 * ((n + 1) / 2 - 1) := Nat.mul_le_mul (le_refl 2) hle2
          _ < n := by omega
    · have hm1 : (n + 1) / 2 = 1 := by omega
      rw [hm1, ceilLog2Fuel_one, pow_zero]
      omega

theorem ceilLog2_le_pow (n : Nat) (h : 1 ≤ n) : n ≤ 2 ^ ceilLog2 n :=
  ceilLog2Fuel_le_pow n n h le_rfl

theorem pow_pred_lt_of_ceilLog2 (n : Nat) (h : 2 ≤ n) :
    2 ^ (ceilLog2 n - 1) < n :=
  ceilLog2Fuel_pow_pred_lt n n h

theorem lt_ceilLog2_of_pow_lt {k n : Nat} (h : 2 ^ k < n) : k < ceilLog2 n := by
  have h1 : 1 ≤ n := le_trans Nat.one_le_two_pow (le_of_lt h)
  have h3 : 2 ^ k < 2 ^ ceilLog2 n := lt_of_lt_of_le h (ceilLog2_le_pow n h1)
  exact (Nat.pow_lt_pow_iff_right (by norm_num)).mp h3

theorem ceilLog2_le_of_le_pow {n k : Nat} (h : n ≤ 2 ^ k) : ceilLog2 n ≤ k := by
  rcases le_or_lt n 1 with hn | hn
  · have h0 : ceilLog2 n = 0 := by interval_cases n <;> decide
    omega
  · have h3 : 2 ^ (ceilLog2 n - 1) < 2 ^ k :=
      lt_of_lt_of_le (pow_pred_lt_of_ceilLog2 n hn) h
    have := (Nat.pow_lt_pow_iff_right (by norm_num : (1:Nat) < 2)).mp h3
    omega

/-! ## Claims -/

/-- C9: the identifier derivation `_generate_tile_id` is a pure function
of the URL — trivially deterministic across calls and restarts — whose
value is the hex encoding of the 128-bit MD5 digest (16 bytes, hence a
fixed length of 32 characters, all lowercase hex digits) of the URL's
UTF-8 bytes; being total, it has no failure modes. -/
theorem c9_generate_tile_id_deterministic_hex (u : String) :
    generate_tile_id u = generate_tile_id u ∧
    generate_tile_id u = md5Hex (utf8Bytes u) ∧
    (generate_tile_id u).length = 32 ∧
    (∀ c ∈ (generate_tile_id u).data, isLowerHexDigit c = true) := by
  refine ⟨rfl, rfl, ?_, ?_⟩
  · show (hexBytes (md5Digest (utf8Bytes u))).length = 32
    rw [hexBytes_length, md5Digest_length]
  · intro c hc
    exact hexBytes_all_hex _ c hc

/-- C9 witness: a concrete character of a concrete identifier. -/
theorem c9_witness :
    ('e' ∈ (generate_tile_id "https://example.com/image.tif").data) ∧
    isLowerHexDigit 'e' = true :=
  ⟨by decide,
    (c9_generate_tile_id_deterministic_hex "https://example.com/image.tif").2.2.2
      'e' (by decide)⟩

/-- C10: `get_processing_status` is total (it always returns a value)
and resolves with the in-memory entry taking precedence over the
persisted index record, falling back to the `not_started` default. -/
theorem c10_get_processing_status_precedence (st : ProcState) (u : String) :
    (∀ j, st.processing_status.lookup (generate_tile_id u) = some j →
      get_processing_status st u = .fromStatus j) ∧
    (st.processing_status.lookup (generate_tile_id u) = none →
      (∀ r, st.tile_index.lookup (generate_tile_id u) = some r →
        get_processing_status st u = .fromIndex r) ∧
      (st.tile_index.lookup (generate_tile_id u) = none →
        get_processing_status st u = .notStarted)) := by
  refine ⟨fun j hj => ?_, fun hn => ⟨fun r hr => ?_, fun hn2 => ?_⟩⟩ <;>
    simp [get_processing_status, *]

/-- C10 witness: a concrete state where the in-memory entry wins. -/
theorem c10_witness :
    get_processing_status
      ⟨[(generate_tile_id "https://e.com/a.tif",
         { status := "processing", percentage := 10 })], []⟩
      "https://e.com/a.tif" =
      .fromStatus { status := "processing", percentage := 10 } :=
  (c10_get_processing_status_precedence _ "https://e.com/a.tif").1 _
    (by simp [List.lookup])

/-- C8: the tile-URL-template query succeeds exactly when the persisted
index holds a record with status `completed` for the URL's identifier,
and then returns `{base}/tiles/{identifier}/{z}/{x}/{y}.png`. -/
theorem c8_get_tile_url_template_spec (st : ProcState) (u base : String) :
    ((∃ r, st.tile_index.lookup (generate_tile_id u) = some r ∧
        r.status = "completed") ↔
      ∃ s, get_tile_url_template st u base = .ok s) ∧
    (∀ r, st.tile_index.lookup (generate_tile_id u) = some r →
      r.status = "completed" →
      get_tile_url_template st u base =
        .ok (base ++ "/tiles/" ++ generate_tile_id u ++ "/{z}/{x}/{y}.png")) := by
  constructor
  · constructor
    · rintro ⟨r, hr, hs⟩
      exact ⟨base ++ "/tiles/" ++ generate_tile_id u ++ "/{z}/{x}/{y}.png",
        by simp [get_tile_url_template, hr, hs]⟩
    · rintro ⟨s, hs⟩
      simp only [get_tile_url_template] at hs
      cases hl : st.tile_index.lookup (generate_tile_id u) with
      | none => rw [hl] at hs; cases hs
      | some r =>
        rw [hl] at hs
        by_cases hc : r.status = "completed"
        · exact ⟨r, by simp [hl], hc⟩
        · simp [show (r.status != "completed") = true by simpa using hc] at hs
  · intro r hr hs
    simp [get_tile_url_template, hr, hs]

/-- C8 witness: a concrete completed record yields the template. -/
theorem c8_witness :
    get_tile_url_template c8State "https://e.com/b.tif"
      "http://localhost:8000" =
      .ok ("http://localhost:8000" ++ "/tiles/" ++
        generate_tile_id "https://e.com/b.tif" ++ "/{z}/{x}/{y}.png") :=
  (c8_get_tile_url_template_spec c8State "https://e.com/b.tif"
      "http://localhost:8000").2 c8Rec (by simp [c8State, List.lookup]) rfl

/-- C3: when a completed record exists for the URL's identifier, both
entry points short-circuit: `queue_processing` returns `alreadyTiled`
with the state untouched (so no background run, no external call and no
filesystem effect occurs), and `process_image` returns the existing
record with the state, index and filesystem unchanged and an empty
external-call log. -/
theorem c3_completed_short_circuit (env : Env) (fs : FS) (st : ProcState)
    (u : String) (md : List (String × String)) (h : is_tiled st u = true) :
    queue_processing st u = (.alreadyTiled, st) ∧
    (process_image env fs st u md).stateAfter = st ∧
    (process_image env fs st u md).fsAfter = fs ∧
    (process_image env fs st u md).calls = [] ∧
    (∀ r, st.tile_index.lookup (generate_tile_id u) = some r →
      (process_image env fs st u md).result = .ok r) := by
  refine ⟨by simp [queue_processing, h], by simp [process_image, h],
    by simp [process_image, h], by simp [process_image, h], fun r hr => ?_⟩
  simp [process_image, h, hr]

/-- C3 witness: a concrete completed state short-circuits. -/
theorem c3_witness :
    queue_processing c3State "https://e.com/c.tif" =
      (QueueOutcome.alreadyTiled, c3State) :=
  (c3_completed_short_circuit
    ⟨true, 0, [], true, true, none, 0, "", [], [], 0, ""⟩
    ⟨false, false, false, []⟩ c3State "https://e.com/c.tif" []
    (by simp [c3State, is_tiled, List.lookup])).1

/-- C6: the zoom bound handed to the tiler is
`clamp(ceil(log2(max(w,h)/256)), 0, 12)`: it is `0` up to `256`
(the clamp floor), between `256` and `2^20 = 256·2^12` it is the least
`z` with `max(w,h) ≤ 256·2^z` (which is exactly `ceil(log2(max/256))`),
and above `2^20` (a raw log2 result exceeding `12`) it is exactly `12`;
in particular `0` for 256×256, `1` for 512×256, `9` for 69536×22230. -/
theorem c6_target_max_zoom_characterization :
    (∀ w h, 1 ≤ max w h → max w h ≤ 256 → target_max_zoom w h = 0) ∧
    (∀ w h, 256 < max w h → max w h ≤ 1048576 →
      max w h ≤ 256 * 2 ^ target_max_zoom w h ∧
      256 * 2 ^ (target_max_zoom w h - 1) < max w h) ∧
    (∀ w h, 1048576 < max w h → target_max_zoom w h = 12) ∧
    target_max_zoom 256 256 = 0 ∧
    target_max_zoom 512 256 = 1 ∧
    target_max_zoom 69536 22230 = 9 := by
  refine ⟨?_, ?_, ?_, by decide, by decide, by decide⟩
  · intro w h h1 h2
    have hc : ceilLog2 (max w h) ≤ 8 :=
      ceilLog2_le_of_le_pow (le_trans h2 (by norm_num))
    simp only [target_max_zoom, calculated_max_zoom]
    omega
  · intro w h h1 h2
    have hc1 : 8 < ceilLog2 (max w h) :=
      lt_ceilLog2_of_pow_lt (lt_of_le_of_lt (by norm_num) h1)
    have hc2 : ceilLog2 (max w h) ≤ 20 :=
      ceilLog2_le_of_le_pow (le_trans h2 (by norm_num))
    have htgt : target_max_zoom w h = ceilLog2 (max w h) - 8 := by
      simp only [target_max_zoom, calculated_max_zoom]
      omega
    rw [htgt]
    constructor
    · calc max w h ≤ 2 ^ ceilLog2 (max w h) := ceilLog2_le_pow _ (by omega)
        _ = 256 * 2 ^ (ceilLog2 (max w h) - 8) := by
            rw [show (256:Nat) = 2 ^ 8 by norm_num, ← pow_add]
            congr 1
            omega
    · calc 256 * 2 ^ (ceilLog2 (max w h) - 8 - 1)
          = 2 ^ (ceilLog2 (max w h) - 1) := by
            rw [show (256:Nat) = 2 ^ 8 by norm_num, ← pow_add]
            congr 1
            omega
        _ < max w h := pow_pred_lt_of_ceilLog2 _ (by omega)
  · intro w h h1
    have hc : 20 < ceilLog2 (max w h) :=
      lt_ceilLog2_of_pow_lt (lt_of_le_of_lt (by norm_num) h1)
    simp only [target_max_zoom, calculated_max_zoom]
    omega

/-- C6 witness: the Andromeda dimensions sit in the characterized band. -/
theorem c6_witness :
    max 69536 22230 ≤ 256 * 2 ^ target_max_zoom 69536 22230 ∧
    256 * 2 ^ (target_max_zoom 69536 22230 - 1) < max 69536 22230 :=
  c6_target_max_zoom_characterization.2.1 69536 22230 (by norm_num)
    (by norm_num)

/-- C1 counterexample: with the tiler exiting `0` on an empty output
directory, the run does NOT end `failed` with no index write — it ends
`completed` and writes a completed record with the fallback zoom bounds
(`min_zoom = 0`, `max_zoom = 8`, the empty-directory defaults of
`_get_min_zoom`/`_get_max_zoom`). -/
theorem c1_counterexample :
    c1Env.tilerExit = 0 ∧ c1Env.tilerEntries = [] ∧
    ¬ (((c1Run.stateAfter.processing_status.lookup
          (generate_tile_id c1Url)).map JobStatus.status = some "failed") ∧
        c1Run.indexWrite = none) ∧
    (c1Run.stateAfter.processing_status.lookup
      (generate_tile_id c1Url)).map JobStatus.status = some "completed" ∧
    c1Run.indexWrite.map TileSetRecord.status = some "completed" ∧
    c1Run.indexWrite.map TileSetRecord.min_zoom = some (some 0) ∧
    c1Run.indexWrite.map TileSetRecord.max_zoom = some 8 := by decide

/-- C1 amended: when the tiling stage runs and the external tiler exits
`0` while writing no entries at all, the run is nevertheless recorded as
a success: the final in-memory status is `completed` and a
`TileSetRecord` with `status = completed` and the fallback bounds
`min_zoom = 0`, `max_zoom = 8` is written to the persisted index. -/
theorem c1_amended (env : Env) (fs : FS) (st : ProcState) (u : String)
    (md : List (String × String))
    (himg : fs.imageExists = true) (hgeo : fs.georefExists = true)
    (htiles : fs.tilesDirExists = false)
    (hfound : env.gdal2tilesFound = true) (hinfo : env.gdalinfoOk = true)
    (hsize : ∀ w h, env.gdalinfoSize = some (w, h) → 0 < max w h)
    (hexit : env.tilerExit = 0) (hempty : env.tilerEntries = []) :
    (process_image_background env fs st u md).indexWrite.map
      TileSetRecord.status = some "completed" ∧
    (process_image_background env fs st u md).indexWrite.map
      TileSetRecord.min_zoom = some (some 0) ∧
    (process_image_background env fs st u md).indexWrite.map
      TileSetRecord.max_zoom = some 8 ∧
    ((process_image_background env fs st u md).stateAfter.processing_status.lookup
      (generate_tile_id u)).map JobStatus.status = some "completed" := by
  have h3 : (!fs.tilesDirExists || fs.tilesEntries.isEmpty) = true := by
    rw [htiles]; rfl
  rcases hs : env.gdalinfoSize with _ | ⟨w, h⟩
  · simp [process_image_background, bgStep1, bgStep2, bgStep3,
      download_image, generate_tiles, generateTilesRun, himg, hgeo, h3,
      hfound, hinfo, hexit, hempty, hs, lookup_insertAL, get_min_zoom,
      get_max_zoom, zoomLevels]
  · have hw : ¬ (max w h = 0) := by have := hsize w h hs; omega
    simp [process_image_background, bgStep1, bgStep2, bgStep3,
      download_image, generate_tiles, generateTilesRun, himg, hgeo, h3,
      hfound, hinfo, hexit, hempty, hs, hw, lookup_insertAL, get_min_zoom,
      get_max_zoom, zoomLevels]

/-- C1 amended witness: the concrete empty-output run. -/
theorem c1_amended_witness :
    (process_image_background c1Env ⟨true, true, false, []⟩ ⟨[], []⟩
      c1Url []).indexWrite.map TileSetRecord.status = some "completed" ∧
    (process_image_background c1Env ⟨true, true, false, []⟩ ⟨[], []⟩
      c1Url []).indexWrite.map TileSetRecord.min_zoom = some (some 0) ∧
    (process_image_background c1Env ⟨true, true, false, []⟩ ⟨[], []⟩
      c1Url []).indexWrite.map TileSetRecord.max_zoom = some 8 ∧
    ((process_image_background c1Env ⟨true, true, false, []⟩ ⟨[], []⟩
      c1Url []).stateAfter.processing_status.lookup
        (generate_tile_id c1Url)).map JobStatus.status = some "completed" :=
  c1_amended c1Env ⟨true, true, false, []⟩ ⟨[], []⟩ c1Url [] rfl rfl rfl rfl
    rfl (by intro w h hh; simp [c1Env] at hh; omega) rfl rfl

/-- C2 counterexample: after a failed run retains its `failed` entry,
resubmitting the same URL through `queue_processing` is declined
(`alreadyProcessing`, state unchanged — no new run is started), because
the duplicate check tests mere presence of the entry, not its status. -/
theorem c2_counterexample :
    (c2Run.stateAfter.processing_status.lookup
      (generate_tile_id c2Url)).map JobStatus.status = some "failed" ∧
    is_tiled c2Run.stateAfter c2Url = false ∧
    queue_processing c2Run.stateAfter c2Url =
      (QueueOutcome.alreadyProcessing, c2Run.stateAfter) := by decide

/-- C2 amended: while any status entry for the identifier is retained
(in particular the `failed` entry of a previous run) and no completed
record exists, a background resubmission of the same URL is declined:
`queue_processing` returns `alreadyProcessing` and leaves the state
unchanged, so no new run re-attempts the pipeline. -/
theorem c2_amended (st : ProcState) (u : String)
    (h1 : (st.processing_status.lookup (generate_tile_id u)).isSome = true)
    (h2 : is_tiled st u = false) :
    queue_processing st u = (.alreadyProcessing, st) := by
  simp [queue_processing, h1, h2]

/-- C2 amended witness: the concrete failed run's state declines. -/
theorem c2_witness :
    queue_processing c2Run.stateAfter c2Url =
      (QueueOutcome.alreadyProcessing, c2Run.stateAfter) :=
  c2_amended c2Run.stateAfter c2Url (by decide) (by decide)

/-- C7: when the downloaded and georeferenced artifacts exist but the
tiles directory does not (or is empty), a background run performs no
HTTP transfer and no `gdal_translate` invocation, does invoke the
tile-generation stage's external tooling (`gdalinfo` plus `gdal2tiles`
at some zoom bound), and still advances the skipped stages' markers:
the 20% `Download complete` and 40% `Georeferencing complete` updates
are written, and the stage marker reaches `generating_tiles`. -/
theorem c7_resumability (env : Env) (fs : FS) (st : ProcState)
    (u : String) (md : List (String × String))
    (himg : fs.imageExists = true) (hgeo : fs.georefExists = true)
    (htiles : fs.tilesDirExists = false ∨ fs.tilesEntries = [])
    (hfound : env.gdal2tilesFound = true) (hinfo : env.gdalinfoOk = true)
    (hsize : ∀ w h, env.gdalinfoSize = some (w, h) → 0 < max w h) :
    ExtCall.httpGet ∉ (process_image_background env fs st u md).calls ∧
    ExtCall.gdalTranslate ∉ (process_image_background env fs st u md).calls ∧
    (∃ z, ExtCall.gdal2tiles z ∈ (process_image_background env fs st u md).calls) ∧
    (∃ j ∈ (process_image_background env fs st u md).trace,
      j.percentage = 20 ∧ j.message = "Download complete") ∧
    (∃ j ∈ (process_image_background env fs st u md).trace,
      j.percentage = 40 ∧ j.message = "Georeferencing complete") ∧
    (∃ j ∈ (process_image_background env fs st u md).trace,
      j.progress = "generating_tiles") := by
  have h3 : (!fs.tilesDirExists || fs.tilesEntries.isEmpty) = true := by
    rcases htiles with h | h
    · rw [h]; rfl
    · rw [h]; simp
  have key : ∃ t,
      (process_image_background env fs st u md).calls =
        [ExtCall.gdalinfo, ExtCall.gdal2tiles t] ∧
      (process_image_background env fs st u md).trace.take 4 =
        [⟨"processing", "queued", 0, "Queued for processing...", none⟩,
         ⟨"processing", "queued", 20, "Download complete", none⟩,
         ⟨"processing", "queued", 40, "Georeferencing complete", none⟩,
         ⟨"processing", "generating_tiles", 40,
           "Generating tiles... This may take several minutes.", none⟩] := by
    rcases hs : env.gdalinfoSize with _ | ⟨w, h⟩
    · by_cases he : env.tilerExit = 0 <;>
        exact ⟨8,
          by simp [process_image_background, bgStep1, bgStep2, bgStep3,
            download_image, generate_tiles, generateTilesRun, bgFail, himg,
            hgeo, h3, hfound, hinfo, hs, he],
          by simp [process_image_background, bgStep1, bgStep2, bgStep3,
            download_image, generate_tiles, generateTilesRun, bgFail, himg,
            hgeo, h3, hfound, hinfo, hs, he]⟩
    · have hw : ¬ (max w h = 0) := by have := hsize w h hs; omega
      by_cases he : env.tilerExit = 0 <;>
        exact ⟨target_max_zoom w h,
          by simp [process_image_background, bgStep1, bgStep2, bgStep3,
            download_image, generate_tiles, generateTilesRun, bgFail, himg,
            hgeo, h3, hfound, hinfo, hs, hw, he],
          by simp [process_image_background, bgStep1, bgStep2, bgStep3,
            download_image, generate_tiles, generateTilesRun, bgFail, himg,
            hgeo, h3, hfound, hinfo, hs, hw, he]⟩
  obtain ⟨t, hcalls, htake⟩ := key
  have hsub := List.take_subset 4 (process_image_background env fs st u md).trace
  rw [htake] at hsub
  refine ⟨by simp [hcalls], by simp [hcalls], ⟨t, by simp [hcalls]⟩, ?_, ?_, ?_⟩
  · exact ⟨⟨"processing", "queued", 20, "Download complete", none⟩,
      hsub (by simp), rfl, rfl⟩
  · exact ⟨⟨"processing", "queued", 40, "Georeferencing complete", none⟩,
      hsub (by simp), rfl, rfl⟩
  · exact ⟨⟨"processing", "generating_tiles", 40,
      "Generating tiles... This may take several minutes.", none⟩,
      hsub (by simp), rfl⟩

/-- C4 counterexample: on the same environment, URL, metadata and empty
starting state, the synchronous variant diverges from the background
run in every aspect the claim asserts to coincide: its external-call
sequence omits the georeference subprocess, its record carries no
`min_zoom`, its terminal in-memory handling deletes the entry instead
of retaining `completed`, and it never fires the dataset callback. -/
theorem c4_counterexample :
    c4Sync.calls ≠ c4Bg.calls ∧
    (ExtCall.gdalTranslate ∈ c4Bg.calls ∧
      ExtCall.gdalTranslate ∉ c4Sync.calls) ∧
    c4Sync.result.toOption.map TileSetRecord.min_zoom ≠
      c4Bg.indexWrite.map TileSetRecord.min_zoom ∧
    c4Sync.stateAfter.processing_status.lookup (generate_tile_id c4Url) ≠
      c4Bg.stateAfter.processing_status.lookup (generate_tile_id c4Url) ∧
    c4Sync.datasetOutcome ≠ c4Bg.datasetOutcome := by decide

/-- C4 amended: the synchronous variant is NOT the background
orchestrator: it never runs the georeference stage and never invokes
the dataset-status bridge; when it does not short-circuit and succeeds,
the record it returns and persists has `status = completed` but no
`min_zoom` key, and the in-memory entry is deleted rather than retained
at `completed`.  (It still returns the final record or propagates the
raised error.) -/
theorem c4_amended (env : Env) (fs : FS) (st : ProcState) (u : String)
    (md : List (String × String)) :
    ExtCall.gdalTranslate ∉ (process_image env fs st u md).calls ∧
    (process_image env fs st u md).datasetOutcome = none ∧
    (is_tiled st u = false →
      ∀ r, (process_image env fs st u md).result = .ok r →
        r.min_zoom = none ∧ r.status = "completed" ∧
        (process_image env fs st u md).stateAfter.processing_status.lookup
          (generate_tile_id u) = none) := by
  have hdl := download_image_no_translate env fs
    ({ status := "processing", progress := "downloading" } : JobStatus)
  have hgt := generate_tiles_no_translate env
    (download_image env fs
      { status := "processing", progress := "downloading" }).fs
    { (download_image env fs
        { status := "processing", progress := "downloading" }).cur with
      progress := "generating_tiles" }
  by_cases ht : is_tiled st u = true
  · refine ⟨?_, ?_, ?_⟩
    · simp only [process_image, if_pos ht]
      simp
    · simp only [process_image, if_pos ht]
    · intro hf
      rw [hf] at ht
      cases ht
  · refine ⟨?_, ?_, ?_⟩
    · simp only [process_image, if_neg ht]
      rcases hr : (download_image env fs
          { status := "processing", progress := "downloading" }).result with e | u0
      · dsimp only
        exact hdl
      · rcases hg : (generate_tiles env
            (download_image env fs
              { status := "processing", progress := "downloading" }).fs
            { (download_image env fs
                { status := "processing", progress := "downloading" }).cur with
              progress := "generating_tiles" }).result with e | mz <;>
          · dsimp only
            simp only [List.mem_append, not_or]
            exact ⟨hdl, hgt⟩
    · simp only [process_image, if_neg ht]
      rcases hr : (download_image env fs
          { status := "processing", progress := "downloading" }).result with e | u0
      · rfl
      · rcases hg : (generate_tiles env
            (download_image env fs
              { status := "processing", progress := "downloading" }).fs
            { (download_image env fs
                { status := "processing", progress := "downloading" }).cur with
              progress := "generating_tiles" }).result with e | mz <;> rfl
    · intro _ r hres
      simp only [process_image, if_neg ht] at hres ⊢
      rcases hr : (download_image env fs
          { status := "processing", progress := "downloading" }).result with e | u0
      · rw [hr] at hres
        cases hres
      · rw [hr] at hres
        rcases hg : (generate_tiles env
            (download_image env fs
              { status := "processing", progress := "downloading" }).fs
            { (download_image env fs
                { status := "processing", progress := "downloading" }).cur with
              progress := "generating_tiles" }).result with e | mz
        · rw [hg] at hres
          cases hres
        · rw [hg] at hres
          cases hres
          exact ⟨rfl, rfl, lookup_eraseAL _ _⟩

/-- C4 amended witness: the concrete synchronous run. -/
theorem c4_witness :
    ExtCall.gdalTranslate ∉ (process_image c4Env ⟨false, false, false, []⟩
      ⟨[], []⟩ c4Url [("dataset_id", "d1")]).calls ∧
    (process_image c4Env ⟨false, false, false, []⟩ ⟨[], []⟩ c4Url
      [("dataset_id", "d1")]).datasetOutcome = none :=
  ⟨(c4_amended c4Env ⟨false, false, false, []⟩ ⟨[], []⟩ c4Url
      [("dataset_id", "d1")]).1,
   (c4_amended c4Env ⟨false, false, false, []⟩ ⟨[], []⟩ c4Url
      [("dataset_id", "d1")]).2.1⟩

/-- C5 counterexample: the percentage reported while the download
streams reaches `30` (the code's 0-30 download band) and then drops to
`20` at the `Download complete` update, so within a single run the
percentage trace `[0, 0, 30, 20, 20, 40, 40, 95, 100]` is not
monotonically non-decreasing, and the value reported during the
download stage exceeds the value set when the stage completes. -/
theorem c5_counterexample :
    c5Run.trace.map JobStatus.percentage = [0, 0, 30, 20, 20, 40, 40, 95, 100] ∧
    nonDecreasing (c5Run.trace.map JobStatus.percentage) = false := by decide

/-- C5 amended: within a single run every reported percentage is an
integer between 0 and 100 (provided the transferred bytes do not exceed
the declared content length), but it is not monotone: the download
stage reports the band 0-30 and the completion update then lowers the
value to 20. -/
theorem c5_amended (env : Env) (fs : FS) (st : ProcState) (u : String)
    (md : List (String × String))
    (hchunks : 0 < env.contentLength → env.chunks.sum ≤ env.contentLength) :
    ∀ j ∈ (process_image_background env fs st u md).trace,
      j.percentage ≤ 100 := by
  simp only [process_image_background, bgFail]
  set S0 : JobStatus :=
    { status := "processing"
      progress := "queued"
      percentage := 0
      message := "Queued for processing..."
      error := none } with hS0
  set T1 := bgStep1 env fs S0 with hT1
  set S20 : JobStatus :=
    { T1.cur with percentage := 20, message := "Download complete" } with hS20
  set T2 := bgStep2 env T1.fs S20 with hT2
  set S40 : JobStatus :=
    { T2.cur with percentage := 40, message := "Georeferencing complete" }
    with hS40
  set T3 := bgStep3 env T2.fs S40 with hT3
  have h1 := bgStep1_bounds env fs S0 (by simp [hS0]) hchunks
  have h2 := bgStep2_bounds env T1.fs S20 (by simp [hS20])
  have h3 := bgStep3_bounds env T2.fs S40 (by simp [hS40])
  rw [← hT1] at h1
  rw [← hT2] at h2
  rw [← hT3] at h3
  rcases hr1 : T1.result with e | u1
  · intro j hj
    simp only [List.cons_append, List.append_assoc, List.mem_cons,
      List.mem_append, List.mem_singleton, List.not_mem_nil, or_false,
      false_or] at hj
    repeat' (rcases hj with hj | hj)
    all_goals
      first
      | exact hj.elim
      | (subst hj; simp [hS0, hS20, hS40])
      | simp [hS0, hS20, hS40]
      | exact h1.1 j hj
      | exact h2.1 j hj
      | exact h3.1 j hj
  · rcases hr2 : T2.result with e | u2
    · intro j hj
      simp only [List.cons_append, List.append_assoc, List.mem_cons,
        List.mem_append, List.mem_singleton, List.not_mem_nil, or_false,
        false_or] at hj
      repeat' (rcases hj with hj | hj)
      all_goals
        first
        | exact hj.elim
        | (subst hj; simp [hS0, hS20, hS40])
        | simp [hS0, hS20, hS40]
        | exact h1.1 j hj
        | exact h2.1 j hj
        | exact h3.1 j hj
    · rcases hr3 : T3.result with e | mz <;>
        · intro j hj
          simp only [List.cons_append, List.append_assoc, List.mem_cons,
            List.mem_append, List.mem_singleton, List.not_mem_nil, or_false,
            false_or] at hj
          repeat' (rcases hj with hj | hj)
          all_goals
            first
            | exact hj.elim
            | (subst hj; simp [hS0, hS20, hS40])
            | simp [hS0, hS20, hS40]
            | exact h1.1 j hj
            | exact h2.1 j hj
            | exact h3.1 j hj

/-- C5 amended witness: the first status value of the concrete run is
within bounds. -/
theorem c5_witness :
    ({ status := "processing", progress := "queued", percentage := 0,
       message := "Queued for processing...", error := none } :
       JobStatus).percentage ≤ 100 :=
  c5_amended c5Env ⟨false, false, false, []⟩ ⟨[], []⟩ c5Url []
    (by intro h; decide) _ (by decide)

/-- C7 witness: a concrete resumable state invokes neither the
download transfer nor the georeference subprocess. -/
theorem c7_witness :
    ExtCall.httpGet ∉ (process_image_background c7Env
      ⟨true, true, false, []⟩ ⟨[], []⟩ "https://e.com/d.tif" []).calls ∧
    ExtCall.gdalTranslate ∉ (process_image_background c7Env
      ⟨true, true, false, []⟩ ⟨[], []⟩ "https://e.com/d.tif" []).calls :=
  ⟨(c7_resumability c7Env ⟨true, true, false, []⟩ ⟨[], []⟩
      "https://e.com/d.tif" [] rfl rfl (Or.inl rfl) rfl rfl
      (by intro w h hh; simp [c7Env] at hh; omega)).1,
   (c7_resumability c7Env ⟨true, true, false, []⟩ ⟨[], []⟩
      "https://e.com/d.tif" [] rfl rfl (Or.inl rfl) rfl rfl
      (by intro w h hh; simp [c7Env] at hh; omega)).2.1⟩

end TileProc
